import Mathlib

/-!
Shallow embedding of the EFMD gap-analysis tool (efmd_scraper_v2.py).

The embedding models Python strings as Lean `String` (lists of characters);
Python `str.lower()` is modelled for the ASCII range via `Char.toLower`
(all inputs used in concrete evaluations are ASCII; the multilingual verb
lists are already lower-case in the source).  Network fetching + HTML
parsing (`requests.get` and `BeautifulSoup`, which is I/O respectively an
external library) is modelled as an oracle `String → Except String (PageRecord × String)`
passed to the orchestrator, exactly at the boundary of the source's
`try/except` block in `scrape_url`.  Everything downstream of that boundary
is translated directly from the source.
-/

/-- Models Python's `\s` / `str.strip()` whitespace for the ASCII range. -/
def isPySpace (c : Char) : Bool :=
  c == ' ' || c == '\t' || c == '\n' || c == '\r' || c == '\x0b' || c == '\x0c'

/-- Models Python `str.lower()` (ASCII range). -/
def pyLower (s : String) : String :=
  String.mk (s.data.map Char.toLower)

/-- Strips leading and trailing Python whitespace from a character list. -/
def stripChars (cs : List Char) : List Char :=
  ((cs.dropWhile isPySpace).reverse.dropWhile isPySpace).reverse

/-- Models Python `str.strip()`. -/
def pyStrip (s : String) : String :=
  String.mk (stripChars s.data)

/-- Tests whether the second list is a leading segment of the first. -/
def listStartsWith : List Char → List Char → Bool
  | _, [] => true
  | [], _ :: _ => false
  | c :: cs, d :: ds => c == d && listStartsWith cs ds

/-- Scans the haystack left to right for the needle. -/
def containsAux (needle : List Char) : List Char → Bool
  | [] => needle.isEmpty
  | c :: cs => listStartsWith (c :: cs) needle || containsAux needle cs

/-- Models Python's substring test `needle in hay`. -/
def strContains (hay needle : String) : Bool :=
  containsAux needle.data hay.data

/-- Models Python string slicing `s[:n]`. -/
def takeChars (n : Nat) (s : String) : String :=
  String.mk (s.data.take n)

/-- Replaces every non-overlapping occurrence of `old` (nonempty) left to
right, as Python `str.replace` does. -/
def replaceChars (old new : List Char) : List Char → List Char
  | [] => []
  | c :: rest =>
    if listStartsWith (c :: rest) old && !old.isEmpty then
      new ++ replaceChars old new (rest.drop (old.length - 1))
    else
      c :: replaceChars old new rest
termination_by cs => cs.length
decreasing_by
  · simp only [List.length_drop, List.length_cons]
    omega
  · simp only [List.length_cons]
    omega

/-- Models Python `str.replace(old, new)`. -/
def strReplace (s old new : String) : String :=
  String.mk (replaceChars old.data new.data s.data)

/-!  Module-level constants of efmd_scraper_v2.py. -/

/-- PILLAR_MATCH_THRESHOLD = 0.55. -/
def PILLAR_MATCH_THRESHOLD : ℚ := 55 / 100

/-- STRONG_MATCH_THRESHOLD = 0.70. -/
def STRONG_MATCH_THRESHOLD : ℚ := 70 / 100

/-- KNOWLEDGE_VERBS from the source. -/
def KNOWLEDGE_VERBS : List String :=
  ["define", "describe", "identify", "know", "label", "list", "match",
   "name", "outline", "recall", "recognize", "reproduce", "select", "state",
   "understand", "explain", "interpret", "summarize", "classify", "compare",
   "demonstrate understanding", "possess knowledge", "have knowledge",
   "beskrive", "forklare", "identifisere", "gjenkjenne", "definere",
   "beschreiben", "erklären", "identifizieren", "erkennen", "definieren",
   "décrire", "expliquer", "identifier", "reconnaître", "définir"]

/-- SKILL_VERBS from the source. -/
def SKILL_VERBS : List String :=
  ["apply", "demonstrate", "employ", "illustrate", "interpret", "operate",
   "practice", "schedule", "sketch", "solve", "use", "write", "analyze",
   "analyse", "calculate", "categorize", "compare", "contrast", "criticize",
   "differentiate", "discriminate", "distinguish", "examine", "experiment",
   "question", "test", "create", "design", "develop", "formulate", "construct",
   "produce", "plan", "compose", "integrate", "evaluate", "assess", "argue",
   "defend", "judge", "support", "value", "critique", "recommend",
   "anvende", "analysere", "vurdere", "utvikle", "designe", "løse",
   "anwenden", "analysieren", "bewerten", "entwickeln", "gestalten", "lösen",
   "appliquer", "analyser", "évaluer", "développer", "concevoir", "résoudre"]

/-- ATTITUDE_VERBS from the source. -/
def ATTITUDE_VERBS : List String :=
  ["appreciate", "accept", "commit", "defend", "demonstrate commitment",
   "display", "exhibit", "internalize", "value", "behave", "act ethically",
   "show responsibility", "take responsibility", "respect", "embrace",
   "verdsette", "akseptere", "forplikte", "respektere", "vise ansvar",
   "wertschätzen", "akzeptieren", "verpflichten", "respektieren",
   "apprécier", "accepter", "engager", "respecter", "valoriser"]

/-- WEAK_VERBS from the source. -/
def WEAK_VERBS : List String :=
  ["understand", "know", "be aware", "appreciate", "be familiar",
   "have knowledge", "possess", "gain insight", "learn about",
   "forstå", "kjenne til", "være kjent med", "ha kunnskap",
   "verstehen", "kennen", "wissen", "vertraut sein",
   "comprendre", "connaître", "savoir", "être familier"]

/-!  Dataclasses. -/

/-- Dataclass ILOAnalysis (the embedding field is omitted: no embedding
service is modelled, matching `ILOAnalyzer` with `embedding_service=None`). -/
structure ILOAnalysis where
  text : String
  source_language : String := "en"
  ksa_category : Option String := none
  verb_found : Option String := none
  has_weak_verb : Bool := false
  is_measurable : Bool := true
  quality_issues : List String := []
  matched_pillars : List String := []
  best_match_score : ℚ := 0
deriving DecidableEq, Repr

/-- Dataclass CourseData.  Note: the field holding course-level outcomes is
named `course_ilos`, exactly as in the source. -/
structure CourseData where
  title : String
  description : Option String := none
  source_language : String := "en"
  ects : Option ℚ := none
  year : Option Int := none
  semester : Option String := none
  is_mandatory : Option Bool := none
  course_ilos : List String := []
  matched_pillars : List String := []
deriving DecidableEq, Repr

/-- Dataclass ProgrammeData (scraped_at timestamp omitted; it is metadata
read by no analysed code path). -/
structure ProgrammeData where
  institution : String
  programme_name : String
  primary_url : String
  degree_type : Option String := none
  duration_months : Option Nat := none
  total_ects : Option Nat := none
  delivery_mode : Option String := none
  languages_of_instruction : List String := []
  urls_scraped : List String := []
  programme_ilos : List ILOAnalysis := []
  courses : List CourseData := []
  programme_aims : List String := []
  raw_html : String := ""
  raw_text : String := ""
  has_ilo_matrix : Bool := false
  scrape_notes : List String := []
deriving DecidableEq, Repr

/-- Dataclass GapAnalysisResult (analyzed_at timestamp omitted). -/
structure GapAnalysisResult where
  programme : ProgrammeData
  readiness_score : Int := 0
  eligibility_pass : Bool := false
  ilo_count : Nat := 0
  ilo_has_knowledge : Bool := false
  ilo_has_skills : Bool := false
  ilo_has_attitudes : Bool := false
  ilo_weak_verb_count : Nat := 0
  courses_total : Nat := 0
  courses_with_ilos : Nat := 0
  courses_no_ilos : List String := []
  documentation_score : ℚ := 0
  ilo_issues : List String := []
  pillar_coverage : List (String × ℚ) := []
  missing_pillars : List String := []
  eligibility_gates : List (String × String) := []
  critical_gaps : List String := []
  structure_issues : List String := []
  recommendations : List String := []
  estimated_fix_months : Nat := 0
  analyzer_version : String := "2.0"
deriving DecidableEq, Repr

/-!  ILOAnalyzer. -/

/-- KSA category detection of ILOAnalyzer.analyze: three sequential
first-match scans, Attitude then Skill then Knowledge; returns the category
and the matched verb. -/
def detectCategory (ilo_lower : String) : Option String × Option String :=
  match ATTITUDE_VERBS.find? (fun v => strContains ilo_lower v) with
  | some v => (some "Attitude", some v)
  | none =>
    match SKILL_VERBS.find? (fun v => strContains ilo_lower v) with
    | some v => (some "Skill", some v)
    | none =>
      match KNOWLEDGE_VERBS.find? (fun v => strContains ilo_lower v) with
      | some v => (some "Knowledge", some v)
      | none => (none, none)

/-- ILOAnalyzer.analyze.  `is_measurable` starts True in the source and is
set to False when no category verb is found and again when a weak verb
matches, hence it equals `category found AND no weak verb`. -/
def ILOAnalyzer.analyze (ilo_text : String) (source_language : String) : ILOAnalysis :=
  let ilo_lower := pyLower ilo_text
  let cv := detectCategory ilo_lower
  let weak := WEAK_VERBS.find? (fun w => strContains ilo_lower w)
  { text := ilo_text
    source_language := source_language
    ksa_category := cv.1
    verb_found := cv.2
    has_weak_verb := weak.isSome
    is_measurable := cv.1.isSome && weak.isNone
    quality_issues :=
      (if cv.1.isNone then ["No clear action verb detected"] else [])
      ++ (match weak with
          | some w => ["Uses weak/vague verb: \"" ++ w ++ "\""]
          | none => [])
      ++ (if ilo_text.length < 30 then ["ILO too brief - likely lacks specificity"] else []) }

/-!  Pillar coverage engine (EFMDScraper._check_pillar_coverage). -/

/-- Fixed pillar keyword table of _check_pillar_coverage, in dict insertion
order. -/
def pillarKeywords : List (String × List String) :=
  [("International",
    ["international", "global", "cross-cultural", "worldwide",
     "foreign", "abroad", "exchange", "intercultural"]),
   ("Practice",
    ["practical", "industry", "corporate", "business", "real-world",
     "case study", "internship", "project", "consultancy"]),
   ("ERS",
    ["ethics", "ethical", "responsibility", "sustainable", "sustainability",
     "csr", "governance", "esg", "stakeholder"]),
   ("Digital",
    ["digital", "technology", "data", "analytics", "ai",
     "artificial intelligence", "software", "fintech"])]

/-- Combined lower-cased text analysed by _check_pillar_coverage:
programme name, ILO texts, aims, course titles and the first 10000
characters of the raw text, space-joined then lower-cased. -/
def combinedText (p : ProgrammeData) : String :=
  pyLower (String.intercalate " "
    [p.programme_name,
     String.intercalate " " (p.programme_ilos.map (fun i => i.text)),
     String.intercalate " " p.programme_aims,
     String.intercalate " " (p.courses.map (fun c => c.title)),
     takeChars 10000 p.raw_text])

/-- EFMDScraper._check_pillar_coverage: per pillar, count keyword substring
hits in the combined text and normalize with `min 1 (matches / 3)`. -/
def EFMDScraper._check_pillar_coverage (p : ProgrammeData) : List (String × ℚ) :=
  let all_text := combinedText p
  pillarKeywords.map (fun pk =>
    let hits := pk.2.countP (fun kw => strContains all_text kw)
    (pk.1, min 1 ((hits : ℚ) / 3)))

/-!  Gap analysis engine (EFMDScraper.analyze_gaps), section by section in
source order.  Each helper mirrors one commented block of the source. -/

/-- Number of programme ILOs classified Knowledge. -/
def knowledgeCount (p : ProgrammeData) : Nat :=
  p.programme_ilos.countP (fun ilo => ilo.ksa_category == some "Knowledge")

/-- Number of programme ILOs classified Skill. -/
def skillCount (p : ProgrammeData) : Nat :=
  p.programme_ilos.countP (fun ilo => ilo.ksa_category == some "Skill")

/-- Number of programme ILOs classified Attitude. -/
def attitudeCount (p : ProgrammeData) : Nat :=
  p.programme_ilos.countP (fun ilo => ilo.ksa_category == some "Attitude")

/-- Number of programme ILOs flagged with a weak verb.  In the source the
counter field stays 0 in the zero-ILO branch, which coincides with the count
over the empty list. -/
def weakVerbCount (p : ProgrammeData) : Nat :=
  p.programme_ilos.countP (fun ilo => ilo.has_weak_verb)

/-- `gap.ilo_has_knowledge` (False by dataclass default in the zero-ILO
branch, which coincides with `knowledge_count > 0` there). -/
def iloHasKnowledge (p : ProgrammeData) : Bool := decide (0 < knowledgeCount p)

/-- `gap.ilo_has_skills`. -/
def iloHasSkills (p : ProgrammeData) : Bool := decide (0 < skillCount p)

/-- `gap.ilo_has_attitudes`. -/
def iloHasAttitudes (p : ProgrammeData) : Bool := decide (0 < attitudeCount p)

/-- The ILO Analysis section's appends to `gap.ilo_issues`, in source
order. -/
def iloIssues (p : ProgrammeData) : List String :=
  if p.programme_ilos.length = 0 then
    ["Programme ILOs are missing entirely"]
  else
    (if p.programme_ilos.length < 5 then
      ["Only " ++ toString p.programme_ilos.length ++ " ILOs - EFMD recommends 5-6"]
     else if 8 < p.programme_ilos.length then
      [toString p.programme_ilos.length ++ " ILOs is too many - EFMD recommends 5-6"]
     else [])
    ++ (if iloHasKnowledge p then [] else ["No Knowledge-focused ILOs detected"])
    ++ (if iloHasSkills p then [] else ["No Skill-focused ILOs detected"])
    ++ (if iloHasAttitudes p then [] else ["No Attitude-focused ILOs detected"])
    ++ (if 0 < weakVerbCount p then
         [toString (weakVerbCount p) ++ " ILOs use weak/unmeasurable verbs"]
        else [])

/-- `gap.missing_pillars`: pillars whose coverage score is below
PILLAR_MATCH_THRESHOLD, in coverage-dict insertion order. -/
def missingPillars (p : ProgrammeData) : List String :=
  ((EFMDScraper._check_pillar_coverage p).filter
    (fun pc => pc.2 < PILLAR_MATCH_THRESHOLD)).map (fun pc => pc.1)

/-- The appends to `gap.critical_gaps`, in source order: the ILO Analysis
section first (the per-dimension entries exist only in the nonzero-ILO
branch), then the ERS escalation from the pillar section. -/
def criticalGaps (p : ProgrammeData) : List String :=
  (if p.programme_ilos.length = 0 then
    ["NO PROGRAMME ILOs FOUND - Critical for EFMD"]
  else
    (if iloHasKnowledge p then [] else ["Missing Knowledge dimension in ILOs"])
    ++ (if iloHasSkills p then [] else ["Missing Skills dimension in ILOs"])
    ++ (if iloHasAttitudes p then [] else ["Missing Attitudes dimension in ILOs"]))
  ++ (if "ERS" ∈ missingPillars p then ["ERS content missing - mandatory since 2013"] else [])

/-- `gap.courses_total`: set to `len(programme.courses)` only inside the
`if programme.courses:` block, 0 otherwise. -/
def coursesTotal (p : ProgrammeData) : Nat :=
  if p.courses.isEmpty then 0 else p.courses.length

/-- The per-course test of the Documentation Status loop.  The source
evaluates `hasattr(course, 'ilos') and len(course.ilos) > 0`; the CourseData
dataclass defines `course_ilos`, not `ilos`, so `hasattr` is False for every
CourseData whatever its `course_ilos` holds. -/
def courseHasIlosAttr (_c : CourseData) : Bool := false

/-- `gap.courses_with_ilos` accumulated over the Documentation Status
loop. -/
def coursesWithIlos (p : ProgrammeData) : Nat :=
  if p.courses.isEmpty then 0 else p.courses.countP courseHasIlosAttr

/-- `gap.courses_no_ilos`.  The `else:` in the source is aligned with the
`for`, making it a for-else; the loop has no `break`, so after the loop the
else-body appends the title of the loop variable, which still holds the last
course. -/
def coursesNoIlos (p : ProgrammeData) : List String :=
  if p.courses.isEmpty then []
  else
    match p.courses.getLast? with
    | some c => [c.title]
    | none => []

/-- `gap.documentation_score`, set inside the `if programme.courses:` block
when `courses_total > 0`. -/
def documentationScore (p : ProgrammeData) : ℚ :=
  if p.courses.isEmpty then 0
  else if 0 < coursesTotal p then ((coursesWithIlos p : ℚ) / (coursesTotal p : ℚ)) * 100
  else 0

/-- The appends to `gap.structure_issues`, in source order: Structure
Issues section then the Documentation Status warning. -/
def structureIssues (p : ProgrammeData) : List String :=
  (if p.courses.isEmpty then ["No course structure found"] else [])
  ++ (if p.has_ilo_matrix then [] else ["No ILO mapping matrix visible"])
  ++ (if !p.courses.isEmpty && documentationScore p < 80 then
       ["Only " ++ toString (coursesWithIlos p) ++ "/" ++ toString (coursesTotal p)
        ++ " courses have documented ILOs"]
      else [])

/-- The appends to `gap.recommendations`, in source order: pillar section
(ERS, International, Practice, Digital), then the matrix recommendation,
then the documentation recommendation. -/
def recommendationsList (p : ProgrammeData) : List String :=
  (if "ERS" ∈ missingPillars p then
    ["Integrate ethics and sustainability across curriculum"] else [])
  ++ (if "International" ∈ missingPillars p then
       ["Add international/global perspective to curriculum"] else [])
  ++ (if "Practice" ∈ missingPillars p then
       ["Strengthen links to business practice"] else [])
  ++ (if "Digital" ∈ missingPillars p then
       ["Add digital transformation content"] else [])
  ++ (if p.has_ilo_matrix then []
      else ["Create matrix: Course ILOs → Programme ILOs → Assessments"])
  ++ (if !p.courses.isEmpty && documentationScore p < 80 then
       ["Document ILOs for all courses before SAR submission"] else [])

/-- Python truthiness of an optional string. -/
def pyTruthyOpt : Option String → Bool
  | some s => !(s == "")
  | none => false

/-- `gap.eligibility_gates`, in dict insertion order. -/
def eligibilityGates (p : ProgrammeData) : List (String × String) :=
  [("ELG-1", "pass"),
   ("ELG-2", if pyTruthyOpt p.degree_type then "pass" else "unknown"),
   ("ELG-3", "unknown"),
   ("ELG-4",
     if p.programme_ilos.length = 0 then "fail"
     else if 5 ≤ p.programme_ilos.length then "pass"
     else "partial"),
   ("ELG-5", "unknown"),
   ("ELG-6", "unknown"),
   ("ELG-7", "unknown"),
   ("ELG-8", "unknown"),
   ("ELG-9", "unknown"),
   ("ELG-10", "unknown")]

/-- The documentation-completeness penalty:
`int((100 - documentation_score) / 10)` when `courses_total > 0` and the
score is below 100, else no subtraction.  Python `int()` truncates towards
zero; the operand is nonnegative there, so truncation equals floor. -/
def docPenalty (p : ProgrammeData) : Int :=
  if 0 < coursesTotal p ∧ documentationScore p < 100 then
    ⌊(100 - documentationScore p) / 10⌋
  else 0

/-- The Readiness Score block: sequential subtractions from 100, before
clamping. -/
def scoreRaw (p : ProgrammeData) : Int :=
  100
  - (if p.programme_ilos.length = 0 then 20 else 0)
  - (if "ERS" ∈ missingPillars p then 20 else 0)
  - (if iloHasKnowledge p then 0 else 10)
  - (if iloHasSkills p then 0 else 10)
  - (if iloHasAttitudes p then 0 else 10)
  - 5 * (missingPillars p).length
  - 5 * (structureIssues p).length
  - 3 * (iloIssues p).length
  - docPenalty p

/-- `gap.readiness_score = max(0, score)`. -/
def readinessScore (p : ProgrammeData) : Int := max 0 (scoreRaw p)

/-- EFMDScraper.analyze_gaps, assembled from the section helpers above. -/
def EFMDScraper.analyze_gaps (p : ProgrammeData) : GapAnalysisResult :=
  { programme := p
    ilo_count := p.programme_ilos.length
    ilo_has_knowledge := iloHasKnowledge p
    ilo_has_skills := iloHasSkills p
    ilo_has_attitudes := iloHasAttitudes p
    ilo_weak_verb_count := weakVerbCount p
    courses_total := coursesTotal p
    courses_with_ilos := coursesWithIlos p
    courses_no_ilos := coursesNoIlos p
    documentation_score := documentationScore p
    ilo_issues := iloIssues p
    pillar_coverage := EFMDScraper._check_pillar_coverage p
    missing_pillars := missingPillars p
    eligibility_gates := eligibilityGates p
    critical_gaps := criticalGaps p
    structure_issues := structureIssues p
    recommendations := recommendationsList p
    estimated_fix_months :=
      if 80 ≤ readinessScore p then 1
      else if 60 ≤ readinessScore p then 3
      else if 40 ≤ readinessScore p then 6
      else 12
    readiness_score := readinessScore p
    eligibility_pass := decide (70 ≤ readinessScore p) && decide ((criticalGaps p).length = 0) }

/-!  Programme scraper orchestration (EFMDScraper.scrape_programme and the
functions it calls).  `requests.get` plus `BeautifulSoup` parsing is the
I/O boundary and is supplied as an oracle `fetchParse` returning either the
parser's page record together with the response html, or the exception
message caught by `scrape_url`'s `except` clause.  Document extraction
(`extract_document_text`, file I/O) is likewise an oracle. -/

/-- Normalized page record produced by a site parser
(`{title, ilos, courses, text, language}`).  Course fragments are opaque
here (no parser in the source ever emits one). -/
structure PageRecord where
  title : String := ""
  ilos : List String := []
  courses : List String := []
  text : String := ""
  language : String := "en"
deriving DecidableEq, Repr

/-- The dict returned by EFMDScraper.scrape_url: success with the parse
result and html, or failure with the stringified exception. -/
inductive UrlResult where
  | success (url : String) (page : PageRecord) (html : String)
  | failure (url : String) (error : String)
deriving DecidableEq, Repr

/-- EFMDScraper.scrape_url: the try-block is the oracle; an exception is
caught and returned as a failure record with the reason string. -/
def EFMDScraper.scrape_url (fetchParse : String → Except String (PageRecord × String))
    (url : String) : UrlResult :=
  match fetchParse url with
  | Except.ok (page, html) => UrlResult.success url page html
  | Except.error e => UrlResult.failure url e

/-- The dict returned by EFMDScraper.extract_document_text. -/
structure DocResult where
  path : String
  text : String := ""
  success : Bool := false
  error : Option String := none
deriving DecidableEq, Repr

/-- Accumulator of the URL loop in scrape_programme. -/
structure ScrapeAcc where
  all_ilos : List (String × String) := []
  all_courses : List String := []
  all_text : String := ""
  all_html : String := ""
  languages : List String := []
  scraped_urls : List String := []
  detected_title : String := ""
deriving DecidableEq, Repr

/-- The URL loop of scrape_programme: successful URLs extend the
accumulator; a failed URL is only reported (printed) and skipped. -/
def scrapeLoop (fetchParse : String → Except String (PageRecord × String)) :
    List String → ScrapeAcc → ScrapeAcc
  | [], acc => acc
  | u :: rest, acc =>
    match EFMDScraper.scrape_url fetchParse u with
    | UrlResult.success url page html =>
      scrapeLoop fetchParse rest
        { all_ilos := acc.all_ilos ++ page.ilos.map (fun t => (t, page.language))
          all_courses := acc.all_courses ++ page.courses
          all_text := acc.all_text ++ " " ++ page.text
          all_html := acc.all_html ++ html
          languages :=
            if acc.languages.contains page.language then acc.languages
            else acc.languages ++ [page.language]
          scraped_urls := acc.scraped_urls ++ [url]
          detected_title :=
            if acc.detected_title == "" then page.title else acc.detected_title }
    | UrlResult.failure _ _ => scrapeLoop fetchParse rest acc

/-- Models one step of `re.split(r'[\n\r]+|(?<=[.!?])\s+', text)`: at each
position the engine first tries a run of newline characters, then a
whitespace run with a `.`, `!` or `?` lookbehind; `prev` holds the original
character before the current position. -/
def isNlCr (c : Char) : Bool := c == '\n' || c == '\r'

/-- Sentence-ending characters of the lookbehind `(?<=[.!?])`. -/
def isSentEnd (c : Char) : Bool := c == '.' || c == '!' || c == '?'

/-- Recursive splitter implementing the regex split above. -/
def pySentenceSplitAux (prev : Option Char) (acc : List Char) :
    List Char → List (List Char)
  | [] => [acc.reverse]
  | c :: rest =>
    if isNlCr c then
      acc.reverse ::
        pySentenceSplitAux (some ((c :: rest.takeWhile isNlCr).getLastD c)) []
          (rest.dropWhile isNlCr)
    else if (match prev with | some q => isSentEnd q | none => false) && isPySpace c then
      acc.reverse ::
        pySentenceSplitAux (some ((c :: rest.takeWhile isPySpace).getLastD c)) []
          (rest.dropWhile isPySpace)
    else
      pySentenceSplitAux (some c) (c :: acc) rest
termination_by cs => cs.length
decreasing_by
  all_goals first
    | exact Nat.lt_succ_of_le (List.Sublist.length_le (List.dropWhile_sublist _))
    | exact Nat.lt_succ_self _

/-- Models `re.split(r'[\n\r]+|(?<=[.!?])\s+', text)`. -/
def pySentenceSplit (text : String) : List String :=
  (pySentenceSplitAux none [] text.data).map String.mk

/-- Leading characters removed by `re.sub(r'^[\d•\-\*\s]+', '', line)`. -/
def isBulletChar (c : Char) : Bool :=
  c.isDigit || c == '•' || c == '-' || c == '*' || isPySpace c

/-- EFMDScraper._extract_ilos_from_text: split into candidate lines, keep
stripped lines of length 25..500 containing any taxonomy verb, clean the
leading bullet run, and keep first occurrences. -/
def EFMDScraper._extract_ilos_from_text (text : String) : List String :=
  (pySentenceSplit text).foldl (fun ilos rawLine =>
    let line := pyStrip rawLine
    if line.length < 25 || 500 < line.length then ilos
    else
      let line_lower := pyLower line
      let has_verb := (KNOWLEDGE_VERBS ++ SKILL_VERBS ++ ATTITUDE_VERBS).any
        (fun v => strContains line_lower v)
      if has_verb then
        let clean := pyStrip (String.mk (line.data.dropWhile isBulletChar))
        if !(clean == "") && !ilos.contains clean then ilos ++ [clean] else ilos
      else ilos) []

/-- The document loop of scrape_programme: successful extractions extend
the text and the ILO candidates (tagged English); failures are only
printed. -/
def docPhase (extractDoc : String → DocResult) (documents : List String)
    (start : List (String × String) × String) : List (String × String) × String :=
  documents.foldl (fun acc doc_path =>
    let result := extractDoc doc_path
    if result.success then
      (acc.1 ++ (EFMDScraper._extract_ilos_from_text result.text).map (fun t => (t, "en")),
       acc.2 ++ " " ++ result.text)
    else acc) start

/-- The deduplication key `ilo_text.lower().strip()`. -/
def dedupKey (t : String) : String := pyStrip (pyLower t)

/-- The deduplication loop of scrape_programme, with the `seen` set
modelled as the list of keys added so far. -/
def dedupIlosAux (seen : List String) : List (String × String) → List (String × String)
  | [] => []
  | (t, l) :: rest =>
    if dedupKey t ∉ seen ∧ 20 < t.length then
      (t, l) :: dedupIlosAux (dedupKey t :: seen) rest
    else
      dedupIlosAux seen rest

/-- Deduplicate ILO candidates (scrape_programme, `seen = set()` block). -/
def dedupIlos (all_ilos : List (String × String)) : List (String × String) :=
  dedupIlosAux [] all_ilos

/-- EFMDScraper.find_language_variants. -/
def EFMDScraper.find_language_variants (url : String) : List String :=
  let patterns : List (String × String) :=
    [("/en/", "/no/"), ("/no/", "/en/"),
     ("/en/", "/de/"), ("/de/", "/en/"),
     ("/en/", "/fr/"), ("/fr/", "/en/"),
     ("/en/", "/fi/"), ("/fi/", "/en/"),
     ("?lang=en", "?lang=no"), ("?lang=no", "?lang=en"),
     ("/english/", "/norwegian/"), ("/norwegian/", "/english/")]
  patterns.foldl (fun variants pat =>
    if strContains url pat.1 then
      let variant := strReplace url pat.1 pat.2
      if variants.contains variant then variants else variants ++ [variant]
    else variants) [url]

/-- The variant-expansion loop of scrape_programme. -/
def expandVariants (url_list : List String) : List String :=
  url_list.foldl (fun expanded u =>
    (EFMDScraper.find_language_variants u).foldl (fun ex v =>
      if ex.contains v then ex else ex ++ [v]) expanded) []

/-- All ILO candidates collected by one scrape_programme call, URLs then
documents, in processing order. -/
def candidateIlos (fetchParse : String → Except String (PageRecord × String))
    (extractDoc : String → DocResult) (urls : List String) (documents : List String)
    (follow_variants : Bool) : List (String × String) :=
  let url_list := if follow_variants then expandVariants urls else urls
  let acc := scrapeLoop fetchParse url_list {}
  (docPhase extractDoc documents (acc.all_ilos, acc.all_text)).1

/-- Python truthiness of the optional institution / programme_name
parameters (None or empty string is falsy). -/
def pyFalsyOpt : Option String → Bool
  | some s => s == ""
  | none => true

/-- Programme-name derivation
`detected_title.split('|')[0].split('-')[0].strip() or "Unknown Programme"`. -/
def deriveProgrammeName (detected_title : String) : String :=
  let piece := pyStrip ((((detected_title.splitOn "|").headD "").splitOn "-").headD "")
  if piece == "" then "Unknown Programme" else piece

/-- Degree-type detection of scrape_programme: first case-insensitive
substring match in the fixed precedence order. -/
def detectDegreeType (programme_name : String) : Option String :=
  let name_lower := pyLower programme_name
  if strContains name_lower "mba" then some "MBA"
  else if strContains name_lower "msc" || strContains name_lower "master" then some "MSc"
  else if strContains name_lower "bsc" || strContains name_lower "bachelor" then some "BSc"
  else if strContains name_lower "phd" || strContains name_lower "doctor" then some "PhD"
  else none

/-- ILO-matrix phrase list of scrape_programme. -/
def iloMatrixTerms : List String :=
  ["learning outcome matrix", "ilo matrix", "curriculum map",
   "læringsutbyttematrise", "programme map"]

/-- EFMDScraper.scrape_programme.  The urls argument is taken already
normalized to a list (the `isinstance(urls, str)` branch only wraps a bare
string).  When the institution parameter is falsy, the source executes
`domain = urlparse(url).netloc...` — but no variable `url` is ever bound in
scrape_programme (the fetch loop binds `scrape_url`, the variant loop binds
`u`, and there is no module-level `url`), so Python raises
`NameError: name 'url' is not defined`; this is modelled as the error
result. -/
def EFMDScraper.scrape_programme (fetchParse : String → Except String (PageRecord × String))
    (extractDoc : String → DocResult) (urls : List String)
    (institution : Option String) (programme_name : Option String)
    (documents : List String) (follow_variants : Bool) :
    Except String ProgrammeData :=
  let primary_url := urls.headD ""
  let url_list := if follow_variants then expandVariants urls else urls
  let acc := scrapeLoop fetchParse url_list {}
  let docOut := docPhase extractDoc documents (acc.all_ilos, acc.all_text)
  let all_text := docOut.2
  let unique_ilos := dedupIlos docOut.1
  let analyzed_ilos := unique_ilos.map (fun tl => ILOAnalyzer.analyze tl.1 tl.2)
  if pyFalsyOpt institution then
    Except.error "NameError: name 'url' is not defined"
  else
    let inst := institution.getD ""
    let prog_name :=
      if pyFalsyOpt programme_name then deriveProgrammeName acc.detected_title
      else programme_name.getD ""
    Except.ok
      { institution := inst
        programme_name := prog_name
        primary_url := primary_url
        degree_type := detectDegreeType prog_name
        urls_scraped := acc.scraped_urls
        languages_of_instruction := acc.languages
        programme_ilos := analyzed_ilos
        raw_html := acc.all_html
        raw_text := all_text
        has_ilo_matrix :=
          iloMatrixTerms.any (fun term => strContains (pyLower all_text) term) }

/-- Projection used to state results about a call known to succeed. -/
def getOkProg : Except String ProgrammeData → ProgrammeData
  | Except.ok p => p
  | Except.error _ => { institution := "", programme_name := "", primary_url := "" }

/-- Success test on an oracle outcome. -/
def exceptIsOk : Except String (PageRecord × String) → Bool
  | Except.ok _ => true
  | Except.error _ => false

/-!  Supporting lemmas. -/

/-- ILOAnalyzer.analyze never changes the analysed text. -/
theorem analyze_text (t l : String) : (ILOAnalyzer.analyze t l).text = t := rfl

/-- The per-course attribute test is False for every course, so the
documentation counter never advances. -/
theorem coursesWithIlos_eq_zero (p : ProgrammeData) : coursesWithIlos p = 0 := by
  unfold coursesWithIlos courseHasIlosAttr
  split
  · rfl
  · simp

/-- Consequently the documentation score is always 0. -/
theorem documentationScore_eq_zero (p : ProgrammeData) : documentationScore p = 0 := by
  unfold documentationScore
  rw [coursesWithIlos_eq_zero]
  split
  · rfl
  · split <;> simp

/-- The documentation penalty is 10 whenever courses exist, 0 otherwise. -/
theorem docPenalty_eq (p : ProgrammeData) :
    docPenalty p = if p.courses = [] then 0 else 10 := by
  unfold docPenalty coursesTotal
  rw [documentationScore_eq_zero]
  cases hc : p.courses with
  | nil => simp
  | cons a l =>
    simp
    rw [show (100 : ℚ) / 10 = ((10 : ℤ) : ℚ) by norm_num]
    exact Int.floor_intCast 10

/-- Clamping at 100 is redundant for values already at most 100. -/
theorem max_min_eq_of_le (s : Int) (h : s ≤ 100) : max 0 (min 100 s) = max 0 s := by
  omega

/-!  Claim theorems. -/

/-- C1: analyze_gaps computes the readiness score by starting at 100 and
subtracting 20 for zero ILOs, 20 for missing ERS, 10 per absent
Knowledge/Skill/Attitude dimension, 5 per missing pillar (so missing ERS is
penalized twice), 5 per structural issue, 3 per ILO issue and
floor((100 - documentation_score)/10) when the programme has courses,
clamped to [0, 100]. -/
theorem C1_readiness_score_formula (p : ProgrammeData) :
    (EFMDScraper.analyze_gaps p).readiness_score =
      max 0 (min 100
        (100
          - (if (EFMDScraper.analyze_gaps p).ilo_count = 0 then 20 else 0)
          - (if "ERS" ∈ (EFMDScraper.analyze_gaps p).missing_pillars then 20 else 0)
          - (if (EFMDScraper.analyze_gaps p).ilo_has_knowledge then 0 else 10)
          - (if (EFMDScraper.analyze_gaps p).ilo_has_skills then 0 else 10)
          - (if (EFMDScraper.analyze_gaps p).ilo_has_attitudes then 0 else 10)
          - 5 * ((EFMDScraper.analyze_gaps p).missing_pillars.length : Int)
          - 5 * ((EFMDScraper.analyze_gaps p).structure_issues.length : Int)
          - 3 * ((EFMDScraper.analyze_gaps p).ilo_issues.length : Int)
          - (if p.courses ≠ [] then
              ⌊(100 - (EFMDScraper.analyze_gaps p).documentation_score) / 10⌋
             else 0))) := by
  simp only [EFMDScraper.analyze_gaps]
  unfold readinessScore scoreRaw
  rw [docPenalty_eq, documentationScore_eq_zero]
  rw [show ((100 : ℚ) - 0) / 10 = ((10 : ℤ) : ℚ) by norm_num, Int.floor_intCast]
  by_cases hc : p.courses = []
  · simp only [hc, ne_eq, not_true_eq_false, if_false, if_true]
    split_ifs <;> omega
  · simp only [hc, ne_eq, not_false_eq_true, if_true, if_false]
    split_ifs <;> omega

/-- C3: eligibility_pass holds exactly when the readiness score is at
least 70 and the critical-gap list is empty. -/
theorem C3_eligibility_pass_iff (p : ProgrammeData) :
    (EFMDScraper.analyze_gaps p).eligibility_pass = true ↔
      (70 ≤ (EFMDScraper.analyze_gaps p).readiness_score ∧
       (EFMDScraper.analyze_gaps p).critical_gaps = []) := by
  simp only [EFMDScraper.analyze_gaps]
  simp [List.length_eq_zero]

/-- C6: ILOAnalyzer.analyze marks a statement unmeasurable whenever a weak
verb matched or no category verb was found. -/
theorem C6_weak_or_no_verb_not_measurable (ilo_text source_language : String)
    (h : (ILOAnalyzer.analyze ilo_text source_language).has_weak_verb = true ∨
         (ILOAnalyzer.analyze ilo_text source_language).ksa_category = none) :
    (ILOAnalyzer.analyze ilo_text source_language).is_measurable = false := by
  simp only [ILOAnalyzer.analyze] at h ⊢
  rcases h with h | h
  · cases hw : WEAK_VERBS.find? (fun w => strContains (pyLower ilo_text) w) with
    | none => rw [hw] at h; simp at h
    | some w => simp [hw]
  · cases hc : (detectCategory (pyLower ilo_text)).1 with
    | none => simp [hc]
    | some c => rw [hc] at h; simp at h

/-- Witness for C6: the scenario-D statement has a weak verb, classifies as
Knowledge (the weak verb "understand" is also a Knowledge verb), and is
unmeasurable. -/
theorem C6_weak_verb_witness :
    (ILOAnalyzer.analyze "Students will understand financial markets and banking institutions" "en").has_weak_verb = true
    ∧ (ILOAnalyzer.analyze "Students will understand financial markets and banking institutions" "en").ksa_category = some "Knowledge"
    ∧ (ILOAnalyzer.analyze "Students will understand financial markets and banking institutions" "en").is_measurable = false :=
  ⟨by decide, by decide,
   C6_weak_or_no_verb_not_measurable
     "Students will understand financial markets and banking institutions" "en"
     (Or.inl (by decide))⟩

/-- C7 (amended): when at least one ILO exists, each absent KSA dimension is
recorded both as a non-critical ILO issue and as a critical-gap entry. -/
theorem C7_missing_dimension_both_entries (p : ProgrammeData)
    (h : p.programme_ilos ≠ []) :
    ((EFMDScraper.analyze_gaps p).ilo_has_knowledge = false →
      "No Knowledge-focused ILOs detected" ∈ (EFMDScraper.analyze_gaps p).ilo_issues ∧
      "Missing Knowledge dimension in ILOs" ∈ (EFMDScraper.analyze_gaps p).critical_gaps)
    ∧ ((EFMDScraper.analyze_gaps p).ilo_has_skills = false →
      "No Skill-focused ILOs detected" ∈ (EFMDScraper.analyze_gaps p).ilo_issues ∧
      "Missing Skills dimension in ILOs" ∈ (EFMDScraper.analyze_gaps p).critical_gaps)
    ∧ ((EFMDScraper.analyze_gaps p).ilo_has_attitudes = false →
      "No Attitude-focused ILOs detected" ∈ (EFMDScraper.analyze_gaps p).ilo_issues ∧
      "Missing Attitudes dimension in ILOs" ∈ (EFMDScraper.analyze_gaps p).critical_gaps) := by
  have hlen : ¬ p.programme_ilos.length = 0 := by
    simpa [List.length_eq_zero] using h
  simp only [EFMDScraper.analyze_gaps]
  refine ⟨fun hf => ?_, fun hf => ?_, fun hf => ?_⟩ <;>
    constructor <;>
      simp [iloIssues, criticalGaps, hlen, hf]

/-- Programme with no ILOs at all: all three KSA dimensions are absent. -/
def emptyProgramme : ProgrammeData :=
  { institution := "X", programme_name := "P", primary_url := "" }

/-- Counterexample for C7 as stated: in the zero-ILO case the per-dimension
entries are NOT recorded (only the no-ILOs entries are), although every
dimension is absent. -/
theorem C7_zero_ilo_counterexample :
    (EFMDScraper.analyze_gaps emptyProgramme).ilo_count = 0
    ∧ (EFMDScraper.analyze_gaps emptyProgramme).ilo_has_knowledge = false
    ∧ "Missing Knowledge dimension in ILOs" ∉ (EFMDScraper.analyze_gaps emptyProgramme).critical_gaps
    ∧ "No Knowledge-focused ILOs detected" ∉ (EFMDScraper.analyze_gaps emptyProgramme).ilo_issues := by
  refine ⟨rfl, rfl, ?_, ?_⟩ <;> with_unfolding_all decide

/-- Programme with a single Skill-classified ILO: Knowledge is absent. -/
def skillOnlyProgramme : ProgrammeData :=
  { institution := "X", programme_name := "P", primary_url := "",
    programme_ilos :=
      [{ text := "Apply quantitative methods to market problems",
         ksa_category := some "Skill", verb_found := some "apply" }] }

/-- Witness for C7: with one Skill ILO, the absent Knowledge dimension is
recorded in both lists. -/
theorem C7_missing_dimension_witness :
    "No Knowledge-focused ILOs detected" ∈ (EFMDScraper.analyze_gaps skillOnlyProgramme).ilo_issues
    ∧ "Missing Knowledge dimension in ILOs" ∈ (EFMDScraper.analyze_gaps skillOnlyProgramme).critical_gaps :=
  (C7_missing_dimension_both_entries skillOnlyProgramme (by decide)).1 (by decide)

/-!  Scenario B of the spec (claim C2): 6 ILOs spanning Knowledge, Skill and
Attitude, no weak verbs, all four pillar keyword sets present at least three
times over the combined programme text, and every course carrying a
non-empty course-level outcome list. -/

/-- The six ILO statements of the scenario-B fixture. -/
def scenarioBIloTexts : List String :=
  ["Describe the main theories of corporate governance",
   "Analyse complex financial data with quantitative tools",
   "Demonstrate commitment to responsible and sustainable management",
   "Evaluate international business strategies in global markets",
   "Explain digital technology and data analytics applications",
   "Plan consultancy projects with industry partners abroad"]

/-- A fully documented course of the scenario-B fixture. -/
def scenarioBCourse (t : String) : CourseData :=
  { title := t, course_ilos := ["Students can explain the module content in depth"] }

/-- The scenario-B fixture programme. -/
def scenarioBProgramme : ProgrammeData :=
  { institution := "University of Agder"
    programme_name := "MSc International Business"
    primary_url := "https://example.edu/en/msc-international-business"
    programme_ilos := scenarioBIloTexts.map (fun t => ILOAnalyzer.analyze t "en")
    programme_aims := ["Graduates act with ethics and integrity"]
    courses := ["Module One", "Module Two", "Module Three", "Module Four",
                "Module Five", "Module Six"].map scenarioBCourse
    has_ilo_matrix := true }

/-- C2 evaluated on the code: the scenario-B fixture meets every hypothesis
of the claim (6 ILOs spanning all dimensions, no weak verbs, no missing
pillar, every course's `course_ilos` non-empty), yet the analyzer counts 0
documented courses (its `hasattr(course, 'ilos')` test never sees the
`course_ilos` field) and the readiness score lands at 85, not 100. -/
theorem C2_scenario_b_code_bug_eval :
    (EFMDScraper.analyze_gaps scenarioBProgramme).ilo_count = 6
    ∧ (EFMDScraper.analyze_gaps scenarioBProgramme).ilo_has_knowledge = true
    ∧ (EFMDScraper.analyze_gaps scenarioBProgramme).ilo_has_skills = true
    ∧ (EFMDScraper.analyze_gaps scenarioBProgramme).ilo_has_attitudes = true
    ∧ (EFMDScraper.analyze_gaps scenarioBProgramme).ilo_weak_verb_count = 0
    ∧ (EFMDScraper.analyze_gaps scenarioBProgramme).missing_pillars = []
    ∧ (EFMDScraper.analyze_gaps scenarioBProgramme).critical_gaps = []
    ∧ (EFMDScraper.analyze_gaps scenarioBProgramme).courses_with_ilos = 0
    ∧ (EFMDScraper.analyze_gaps scenarioBProgramme).documentation_score = 0
    ∧ (EFMDScraper.analyze_gaps scenarioBProgramme).readiness_score = 85
    ∧ (EFMDScraper.analyze_gaps scenarioBProgramme).eligibility_pass = true := by
  set_option maxRecDepth 100000 in
  with_unfolding_all decide

/-- Programme with one course whose course-level outcome list is
non-empty. -/
def singleCourseProgramme : ProgrammeData :=
  { institution := "X", programme_name := "P", primary_url := "",
    courses := [{ title := "Accounting",
                  course_ilos := ["Students can explain basic accounting principles"] }],
    has_ilo_matrix := true }

/-- C4 evaluated on the code: for a programme whose single course documents
its outcomes in `course_ilos`, analyze_gaps still reports 0 courses with
ILOs, a 0 documentation score, and the shortfall structure issue, because
its per-course test looks for an attribute named `ilos` that CourseData does
not define. -/
theorem C4_documentation_code_bug_eval :
    (EFMDScraper.analyze_gaps singleCourseProgramme).courses_with_ilos = 0
    ∧ (EFMDScraper.analyze_gaps singleCourseProgramme).documentation_score = 0
    ∧ "Only 0/1 courses have documented ILOs"
        ∈ (EFMDScraper.analyze_gaps singleCourseProgramme).structure_issues := by
  set_option maxRecDepth 100000 in
  with_unfolding_all decide

/-- C5 evaluated on the code: calling scrape_programme without an
institution raises NameError (the source reads an unbound variable `url`)
instead of returning a best-effort ProgrammeData. -/
theorem C5_institution_derivation_code_bug_eval :
    EFMDScraper.scrape_programme (fun _ => Except.error "connection timeout")
      (fun path => { path := path, error := some "no doc" })
      ["https://www.uia.no/en/studies/finance"] none none [] true
      = Except.error "NameError: name 'url' is not defined" := rfl

/-- The dedup loop output is a subsequence of its input (first-seen order). -/
theorem dedupIlosAux_sublist (seen : List String) (xs : List (String × String)) :
    (dedupIlosAux seen xs).Sublist xs := by
  induction xs generalizing seen with
  | nil => simp [dedupIlosAux]
  | cons hd tl ih =>
    obtain ⟨t, l⟩ := hd
    unfold dedupIlosAux
    split
    · exact List.Sublist.cons₂ _ (ih _)
    · exact List.Sublist.cons _ (ih _)

/-- No emitted candidate's key is among the keys already seen. -/
theorem dedupIlosAux_key_not_seen (seen : List String) (xs : List (String × String)) :
    ∀ e ∈ dedupIlosAux seen xs, dedupKey e.1 ∉ seen := by
  induction xs generalizing seen with
  | nil => simp [dedupIlosAux]
  | cons hd tl ih =>
    obtain ⟨t, l⟩ := hd
    unfold dedupIlosAux
    split
    · rename_i hcond
      intro e he
      rcases List.mem_cons.mp he with he | he
      · subst he; exact hcond.1
      · intro hs
        exact ih (dedupKey t :: seen) e he (List.mem_cons_of_mem _ hs)
    · exact ih seen

/-- No two emitted candidates share a dedup key. -/
theorem dedupIlosAux_pairwise (seen : List String) (xs : List (String × String)) :
    (dedupIlosAux seen xs).Pairwise (fun a b => dedupKey a.1 ≠ dedupKey b.1) := by
  induction xs generalizing seen with
  | nil => simp [dedupIlosAux]
  | cons hd tl ih =>
    obtain ⟨t, l⟩ := hd
    unfold dedupIlosAux
    split
    · refine List.Pairwise.cons ?_ (ih _)
      intro b hb heq
      exact dedupIlosAux_key_not_seen _ _ b hb (heq ▸ List.mem_cons_self _ _)
    · exact ih seen

/-- A key already seen is never emitted again. -/
theorem dedupIlosAux_countP_seen (seen : List String) (xs : List (String × String))
    (k : String) (hk : k ∈ seen) :
    (dedupIlosAux seen xs).countP (fun e => dedupKey e.1 == k) = 0 := by
  induction xs generalizing seen with
  | nil => simp [dedupIlosAux]
  | cons hd tl ih =>
    obtain ⟨t, l⟩ := hd
    unfold dedupIlosAux
    split
    · rename_i hcond
      rw [List.countP_cons]
      have hne : ¬ (dedupKey t == k) = true := by
        simp only [beq_iff_eq]
        intro h
        exact hcond.1 (h ▸ hk)
      simp only [hne, if_false, Nat.add_zero]
      exact ih (dedupKey t :: seen) (List.mem_cons_of_mem _ hk)
    · exact ih seen hk

/-- Every unseen input candidate longer than 20 characters is emitted
exactly once per dedup key. -/
theorem dedupIlosAux_countP_one (seen : List String) (xs : List (String × String))
    (t : String) (l : String) (hmem : (t, l) ∈ xs) (hlen : 20 < t.length)
    (hns : dedupKey t ∉ seen) :
    (dedupIlosAux seen xs).countP (fun e => dedupKey e.1 == dedupKey t) = 1 := by
  induction xs generalizing seen with
  | nil => cases hmem
  | cons hd tl ih =>
    obtain ⟨t', l'⟩ := hd
    unfold dedupIlosAux
    split
    · rename_i hcond
      rw [List.countP_cons]
      by_cases hk : dedupKey t' = dedupKey t
      · simp only [hk, beq_self_eq_true, if_true]
        rw [dedupIlosAux_countP_seen _ _ _ (hk ▸ List.mem_cons_self _ _)]
      · have hne : ¬ (dedupKey t' == dedupKey t) = true := by
          simp only [beq_iff_eq]; exact hk
        simp only [hne, if_false, Nat.add_zero]
        rcases List.mem_cons.mp hmem with he | he
        · exact absurd (congrArg (fun q => dedupKey q.1) he).symm hk
        · exact ih (dedupKey t' :: seen) he (by simp [hns, Ne.symm hk])
    · rename_i hcond
      rcases List.mem_cons.mp hmem with he | he
      · obtain ⟨h1, h2⟩ := Prod.mk.injEq .. ▸ he
        exact absurd (by constructor <;> simp [← h1, hns, hlen]) hcond
      · exact ih seen he hns

/-- C8: the programme_ilos list a successful scrape_programme call returns
holds exactly one analysis per distinct lower-cased trimmed candidate text
whose raw form is longer than 20 characters, in first-seen order, and no
two entries share that key. -/
theorem C8_dedup_unique_per_key
    (fetchParse : String → Except String (PageRecord × String))
    (extractDoc : String → DocResult) (urls : List String)
    (institution programme_name : Option String) (documents : List String)
    (follow_variants : Bool) (p : ProgrammeData)
    (h : EFMDScraper.scrape_programme fetchParse extractDoc urls institution
      programme_name documents follow_variants = Except.ok p) :
    p.programme_ilos.Pairwise (fun a b => dedupKey a.text ≠ dedupKey b.text)
    ∧ (∃ sub : List (String × String),
        sub.Sublist (candidateIlos fetchParse extractDoc urls documents follow_variants)
        ∧ p.programme_ilos = sub.map (fun tl => ILOAnalyzer.analyze tl.1 tl.2))
    ∧ ∀ tl ∈ candidateIlos fetchParse extractDoc urls documents follow_variants,
        20 < tl.1.length →
        p.programme_ilos.countP (fun a => dedupKey a.text == dedupKey tl.1) = 1 := by
  have hp : p.programme_ilos =
      (dedupIlos (candidateIlos fetchParse extractDoc urls documents follow_variants)).map
        (fun tl => ILOAnalyzer.analyze tl.1 tl.2) := by
    by_cases hi : pyFalsyOpt institution = true
    · simp only [EFMDScraper.scrape_programme, hi, if_true] at h
      exact absurd h (by simp)
    · rw [Bool.not_eq_true] at hi
      simp only [EFMDScraper.scrape_programme, hi, Bool.false_eq_true, if_false] at h
      rw [← Except.ok.inj h]
      rfl
  refine ⟨?_, ⟨dedupIlos _, dedupIlosAux_sublist [] _, hp⟩, ?_⟩
  · rw [hp, List.pairwise_map]
    simpa only [analyze_text] using dedupIlosAux_pairwise [] _
  · rintro ⟨t, l⟩ hmem hlen
    rw [hp, List.countP_map]
    have : ((fun a => dedupKey a.text == dedupKey t) ∘
        (fun tl : String × String => ILOAnalyzer.analyze tl.1 tl.2))
        = (fun tl : String × String => dedupKey tl.1 == dedupKey t) := by
      funext tl
      simp [Function.comp, analyze_text]
    rw [this]
    exact dedupIlosAux_countP_one [] _ t l hmem hlen (List.not_mem_nil _)

/-- Page record whose two ILO candidates differ only by case. -/
def witnessPage : PageRecord :=
  { title := "Test Programme"
    ilos := ["Explain The Core Principles Of Corporate Finance",
             "explain the core principles of corporate finance"]
    language := "en" }

/-- Oracle serving exactly one URL. -/
def witnessFetch : String → Except String (PageRecord × String) := fun u =>
  if u == "https://x.example/prog" then Except.ok (witnessPage, "") else Except.error "404"

/-- Oracle for which every document extraction fails. -/
def noDocOracle : String → DocResult := fun path =>
  { path := path, error := some "no doc" }

/-- Witness for C8: two candidates differing only by case collapse to one
entry. -/
theorem C8_dedup_witness :
    (getOkProg (EFMDScraper.scrape_programme witnessFetch noDocOracle
        ["https://x.example/prog"] (some "X") (some "Test") [] false)).programme_ilos.countP
      (fun a => dedupKey a.text == dedupKey "Explain The Core Principles Of Corporate Finance") = 1 :=
  (C8_dedup_unique_per_key witnessFetch noDocOracle ["https://x.example/prog"]
      (some "X") (some "Test") [] false
      (getOkProg (EFMDScraper.scrape_programme witnessFetch noDocOracle
        ["https://x.example/prog"] (some "X") (some "Test") [] false)) rfl).2.2
    ("Explain The Core Principles Of Corporate Finance", "en") (by decide) (by decide)

/-- Programme whose text holds exactly three distinct ERS keywords. -/
def ersThreeKeywordProgramme : ProgrammeData :=
  { institution := "X", programme_name := "ethics csr esg", primary_url := "" }

/-- Programme whose text holds exactly one ERS keyword. -/
def ersOneKeywordProgramme : ProgrammeData :=
  { institution := "X", programme_name := "csr", primary_url := "" }

/-- C9: every pillar score is min(1, hits/3) over case-insensitive keyword
substring hits in the combined programme text, all scores lie in [0, 1],
three distinct ERS keywords saturate the ERS score at 1, and one ERS
keyword scores 1/3. -/
theorem C9_pillar_coverage_bounds_and_saturation :
    (∀ (p : ProgrammeData) (pr : String) (q : ℚ),
        (pr, q) ∈ EFMDScraper._check_pillar_coverage p → 0 ≤ q ∧ q ≤ 1)
    ∧ (∀ p : ProgrammeData,
        (EFMDScraper.analyze_gaps p).pillar_coverage = EFMDScraper._check_pillar_coverage p)
    ∧ (∀ p : ProgrammeData,
        EFMDScraper._check_pillar_coverage p = pillarKeywords.map (fun pk =>
          (pk.1, min 1 ((pk.2.countP (fun kw => strContains (combinedText p) kw) : ℚ) / 3))))
    ∧ ("ERS", 1) ∈ EFMDScraper._check_pillar_coverage ersThreeKeywordProgramme
    ∧ ("ERS", 1/3) ∈ EFMDScraper._check_pillar_coverage ersOneKeywordProgramme := by
  refine ⟨?_, fun p => rfl, fun p => rfl,
    by with_unfolding_all decide, by with_unfolding_all decide⟩
  intro p pr q hmem
  unfold EFMDScraper._check_pillar_coverage at hmem
  rw [List.mem_map] at hmem
  obtain ⟨pk, hpk, heq⟩ := hmem
  have hq : min 1 ((pk.2.countP (fun kw => strContains (combinedText p) kw) : ℚ) / 3) = q :=
    congrArg Prod.snd heq
  rw [← hq]
  constructor
  · exact le_min (by norm_num) (by positivity)
  · exact min_le_left _ _

/-- Witness for C9: the bounds hold at the one-keyword fixture. -/
theorem C9_pillar_coverage_witness : (0 : ℚ) ≤ 1/3 ∧ (1 : ℚ)/3 ≤ 1 :=
  C9_pillar_coverage_bounds_and_saturation.1 ersOneKeywordProgramme "ERS" (1/3)
    (by with_unfolding_all decide)

/-- The URL loop records exactly the successfully fetched URLs, in order,
and keeps processing after any failure. -/
theorem scrapeLoop_scraped_urls
    (fetchParse : String → Except String (PageRecord × String))
    (urls : List String) (acc : ScrapeAcc) :
    (scrapeLoop fetchParse urls acc).scraped_urls
      = acc.scraped_urls ++ urls.filter (fun u => exceptIsOk (fetchParse u)) := by
  induction urls generalizing acc with
  | nil => simp [scrapeLoop]
  | cons u rest ih =>
    cases hf : fetchParse u with
    | ok pr =>
      obtain ⟨page, html⟩ := pr
      simp only [scrapeLoop, EFMDScraper.scrape_url, hf]
      rw [ih]
      simp [List.filter_cons, exceptIsOk, hf]
    | error e =>
      simp only [scrapeLoop, EFMDScraper.scrape_url, hf]
      rw [ih]
      simp [List.filter_cons, exceptIsOk, hf]

/-- C10 (amended): a per-URL fetch/parse exception is captured in that
URL's result with its reason string, never aborts the batch (the call still
returns a programme), the failed URL is excluded from urls_scraped while
every remaining URL is still processed - but no note is recorded on the
returned ProgrammeData. -/
theorem C10_fault_isolation
    (fetchParse : String → Except String (PageRecord × String))
    (extractDoc : String → DocResult) (urls : List String) (inst : String)
    (pn : Option String) (docs : List String) (fv : Bool) (hinst : inst ≠ "") :
    (∀ u e, fetchParse u = Except.error e →
       EFMDScraper.scrape_url fetchParse u = UrlResult.failure u e)
    ∧ (∃ p, EFMDScraper.scrape_programme fetchParse extractDoc urls (some inst) pn docs fv
          = Except.ok p
        ∧ p.urls_scraped
            = (if fv then expandVariants urls else urls).filter
                (fun u => exceptIsOk (fetchParse u))
        ∧ p.scrape_notes = []) := by
  constructor
  · intro u e he
    unfold EFMDScraper.scrape_url
    rw [he]
  · have hfalsy : pyFalsyOpt (some inst) = false := by
      simp [pyFalsyOpt, hinst]
    unfold EFMDScraper.scrape_programme
    simp only [hfalsy, Bool.false_eq_true, if_false]
    refine ⟨_, rfl, ?_, rfl⟩
    simpa using scrapeLoop_scraped_urls fetchParse (if fv then expandVariants urls else urls) {}

/-- Oracle failing on every URL except one. -/
def failTwoFetch : String → Except String (PageRecord × String) := fun u =>
  if u == "https://b.example/two" then Except.ok ({ title := "B Programme" }, "")
  else Except.error "timeout"

/-- Witness for C10: the failing URL's result carries the reason string. -/
theorem C10_fault_isolation_witness :
    EFMDScraper.scrape_url failTwoFetch "https://a.example/one"
      = UrlResult.failure "https://a.example/one" "timeout" :=
  (C10_fault_isolation failTwoFetch noDocOracle
      ["https://a.example/one", "https://b.example/two"] "EX" none [] false
      (by decide)).1 "https://a.example/one" "timeout" rfl

/-- Counterexample for C10 as stated: a batch in which one URL fails
returns a programme whose scrape_notes list is empty - the failure is never
recorded as a note on the result. -/
theorem C10_no_note_counterexample :
    failTwoFetch "https://a.example/one" = Except.error "timeout"
    ∧ (EFMDScraper.scrape_programme failTwoFetch noDocOracle
        ["https://a.example/one", "https://b.example/two"] (some "EX") none [] false).toOption.map
        (fun p => (p.urls_scraped, p.scrape_notes))
      = some (["https://b.example/two"], []) := ⟨rfl, rfl⟩
